import Mathlib

/-!
Shallow embedding of the notification debouncing and aggregation engine of the
Anchorr webhook module (`jellyfinWebhook.js`): the event classifier
(`getItemLevel`), the notification composer (`processAndSendNotification`),
and the webhook handler (`handleJellyfinWebhook`) with its two per-key maps
(`debouncedSenders`, `sentNotifications`) and its `setTimeout` timers, which
are modelled as explicit scheduled fire times on an engine state.  Times are
in milliseconds, as in the source.
-/

namespace Anchorr

/-- JavaScript truthiness of an optional string: `undefined` and the empty
string are falsy. -/
def jsTruthy : Option String → Bool
  | some s => s ≠ ""
  | none => false

/-- The JS idiom `x || d` for an optional string `x` and default `d`. -/
def jsOrStr (x : Option String) (d : String) : String :=
  match x with
  | some s => if s = "" then d else s
  | none => d

/-- The JS idiom `x || d` for an optional number `x` interpolated into a
template literal with default string `d` (`0` is falsy). -/
def jsOrNum (x : Option Int) (d : String) : String :=
  match x with
  | some n => if n = 0 then d else toString n
  | none => d

/-- `String(x)` on an optional number: `undefined` stringifies to
`"undefined"`. -/
def jsNumToString : Option Int → String
  | some n => toString n
  | none => "undefined"

/-- Interpolation of an optional string into a template literal:
`undefined` becomes the text `"undefined"`. -/
def jsInterpStr : Option String → String
  | some s => s
  | none => "undefined"

/-- `s.padStart(2, "0")`. -/
def padStart2 (s : String) : String :=
  if 2 ≤ s.length then s else String.mk (List.replicate (2 - s.length) '0') ++ s

/-- `s.replace(/\/$/, '')`: drop one trailing slash. -/
def stripTrailingSlash (s : String) : String :=
  if s.data.getLast? = some '/' then String.mk s.data.dropLast else s

/-- Longest digit prefix of a character list. -/
def takeDigits : List Char → List Char
  | [] => []
  | c :: cs => if c.isDigit then c :: takeDigits cs else []

/-- First maximal run of digits in a character list, i.e. the capture of the
JS regular-expression match for one-or-more digits. -/
def firstDigitRun : List Char → Option String
  | [] => none
  | c :: cs => if c.isDigit then some (String.mk (c :: takeDigits cs)) else firstDigitRun cs

/-- `String(s).match` of one-or-more digits, returning the matched digits. -/
def jsMatchDigits (s : String) : Option String :=
  firstDigitRun s.data

/-- An incoming item-added webhook payload (the fields the module reads). -/
structure Event where
  ItemId : Option String
  NotificationType : String
  ItemType : String
  SeriesId : Option String
  Name : Option String
  SeriesName : Option String
  IndexNumber : Option Int
  ParentIndexNumber : Option Int
  Year : Option Int
  Overview : Option String
  Genres : List String
  Provider_imdb : Option String
  Provider_tmdb : Option String
  ServerUrl : Option String
  ServerId : Option String
deriving DecidableEq

/-- A guild's notification configuration, as returned by the configuration
store; the handler grafts the two API keys onto it per request. -/
structure Config where
  notification_channel_id : Option String
  jellyfin_server_url : Option String
  color_notification : Option String
  tmdb_api_key : Option String
  omdb_api_key : Option String
deriving DecidableEq

/-- One entry of `details.images.backdrops` from the primary (TMDB)
provider. -/
structure Backdrop where
  iso_639_1 : Option String
  file_path : String
deriving DecidableEq

/-- One entry of `details.credits.crew` from the primary provider. -/
structure CrewMember where
  job : String
  name : String
deriving DecidableEq

/-- The primary (TMDB) provider's extended metadata for an item, restricted
to the fields the composer reads. -/
structure Details where
  runtime : Option Int
  overview : Option String
  genres : Option (List String)
  backdrops : List Backdrop
  backdrop_path : Option String
  external_imdb : Option String
  crew : Option (List CrewMember)
deriving DecidableEq

/-- The secondary (OMDb) provider's response fields the composer reads. -/
structure Omdb where
  Runtime : Option String
  imdbRating : Option String
  Director : Option String
deriving DecidableEq

/-- The external metadata providers as oracles: `tmdb` takes the endpoint
kind (`"movie"` or `"tv"`) and the TMDB id; `omdb` takes the IMDb id.
A `none` result covers both a failed fetch and a missing item. -/
structure Env where
  tmdb : String → String → Option Details
  omdb : String → Option Omdb

/-- `getItemLevel`: granularity level of an item type. -/
def getItemLevel (itemType : String) : Nat :=
  if itemType = "Series" then 3
  else if itemType = "Season" then 2
  else if itemType = "Episode" then 1
  else 0

/-- `minutesToHhMm`: format a minute count, `"N/A"` when not positive. -/
def minutesToHhMm (mins : Int) : String :=
  if mins ≤ 0 then "N/A"
  else
    let h := mins / 60
    let m := mins % 60
    (if 0 < h then toString h ++ "h " else "") ++ toString m ++ "m"

/-- `fetchOMDbData`: returns nothing unless both the IMDb id and the OMDb
API key are truthy; otherwise queries the secondary provider. -/
def fetchOMDbData (env : Env) (imdbId : Option String) (omdbApiKey : Option String) : Option Omdb :=
  if jsTruthy imdbId ∧ jsTruthy omdbApiKey then
    match imdbId with
    | some i => env.omdb i
    | none => none
  else none

/-- `findBestBackdrop`: an English-tagged backdrop from the image set if one
exists, else the default backdrop path. -/
def findBestBackdrop (details : Details) : Option String :=
  match details.backdrops.find? (fun b => b.iso_639_1 = some "en") with
  | some b => some b.file_path
  | none => details.backdrop_path

/-- The runtime reconciliation of `processAndSendNotification`: prefer a
truthy, non-`"N/A"` OMDb runtime string (first digit run, rendered as
minutes); otherwise fall back to the TMDB runtime, but only for movies. -/
def computeRuntime (itemType : String) (omdbRuntime : Option String) (tmdbRuntime : Option Int) : String :=
  match omdbRuntime with
  | some r =>
    if r ≠ "" ∧ r ≠ "N/A" then
      match jsMatchDigits r with
      | some d => d ++ " min"
      | none => "N/A"
    else
      if itemType = "Movie" then
        match tmdbRuntime with
        | some rt => if 0 < rt then minutesToHhMm rt else "N/A"
        | none => "N/A"
      else "N/A"
  | none =>
    if itemType = "Movie" then
      match tmdbRuntime with
      | some rt => if 0 < rt then minutesToHhMm rt else "N/A"
      | none => "N/A"
    else "N/A"

/-- The composed notification: the embed fields, the dispatch target and the
link-button data produced by `processAndSendNotification`. -/
structure Notification where
  channelId : Option String
  authorName : String
  embedTitle : String
  url : String
  color : String
  headerLine : String
  overviewText : String
  genre : String
  runtime : String
  rating : String
  backdrop : Option String
  imdbId : Option String
deriving DecidableEq

/-- `processAndSendNotification`: resolve metadata from the two providers,
reconcile the fields and build the notification payload. -/
def processAndSendNotification (env : Env) (data : Event) (config : Config) : Notification :=
  let serverUrl := match data.ServerUrl with
    | some u => stripTrailingSlash u
    | none => ""
  let tmdbId := data.Provider_tmdb
  let details : Option Details :=
    if jsTruthy tmdbId ∧ jsTruthy config.tmdb_api_key then
      match tmdbId with
      | some t => env.tmdb (if data.ItemType = "Movie" then "movie" else "tv") t
      | none => none
    else none
  let imdbId : Option String :=
    if jsTruthy (details.bind Details.external_imdb) then details.bind Details.external_imdb
    else data.Provider_imdb
  let omdb : Option Omdb :=
    if jsTruthy imdbId then fetchOMDbData env imdbId config.omdb_api_key else none
  let runtime := computeRuntime data.ItemType (omdb.bind Omdb.Runtime) (details.bind Details.runtime)
  let rating := match omdb.bind Omdb.imdbRating with
    | some r => if r ≠ "" ∧ r ≠ "N/A" then r ++ "/10" else "N/A"
    | none => "N/A"
  let g1 := match details.bind Details.genres with
    | some gs => String.intercalate ", " gs
    | none => ""
  let g2 := String.intercalate ", " data.Genres
  let genreList := if g1 ≠ "" then g1 else if g2 ≠ "" then g2 else "N/A"
  let overviewText := match details.bind Details.overview with
    | some o => if o ≠ "" then o else "No description available."
    | none => "No description available."
  let headerLine :=
    if data.ItemType = "Movie" then
      match omdb.bind Omdb.Director with
      | some d => if d ≠ "" ∧ d ≠ "N/A" then "Directed by " ++ d else "Summary"
      | none => "Summary"
    else if data.ItemType = "Series" ∨ data.ItemType = "Season" ∨ data.ItemType = "Episode" then
      match details.bind Details.crew with
      | some crew =>
        match crew.find? (fun c => c.job = "Creator" ∨ c.job = "Executive Producer") with
        | some c => "Created by " ++ c.name
        | none => "Summary"
      | none => "Summary"
    else "Summary"
  let authorName :=
    if data.ItemType = "Movie" then "🎬 New movie added!"
    else if data.ItemType = "Series" then "📺 New TV show added!"
    else if data.ItemType = "Season" then "📺 New season added!"
    else if data.ItemType = "Episode" then "📺 New episode added!"
    else "✨ New item added"
  let embedTitle :=
    if data.ItemType = "Movie" then
      jsOrStr data.Name "Unknown Title" ++ " (" ++ jsOrNum data.Year "?" ++ ")"
    else if data.ItemType = "Series" then
      jsOrStr data.Name "Unknown Series" ++ " (" ++ jsOrNum data.Year "?" ++ ")"
    else if data.ItemType = "Season" then
      jsOrStr data.SeriesName "Unknown Series" ++ " (" ++ jsOrNum data.Year "?" ++ ") - Season "
        ++ jsOrNum data.IndexNumber "?"
    else if data.ItemType = "Episode" then
      jsOrStr data.SeriesName "Unknown Series" ++ " - S"
        ++ padStart2 (jsNumToString data.ParentIndexNumber) ++ "E"
        ++ padStart2 (jsNumToString data.IndexNumber) ++ " - " ++ jsInterpStr data.Name
    else jsOrStr data.Name "Unknown Title"
  let url := serverUrl ++ "/web/index.html#!/details?id=" ++ jsInterpStr data.ItemId
    ++ "&serverId=" ++ jsInterpStr data.ServerId
  let backdropPath := match details with
    | some d => findBestBackdrop d
    | none => none
  let backdrop := match backdropPath with
    | some p => if p ≠ "" then some ("https://image.tmdb.org/t/p/w780" ++ p) else none
    | none => none
  { channelId := config.notification_channel_id
    authorName := authorName
    embedTitle := embedTitle
    url := url
    color := jsOrStr config.color_notification "#cba6f7"
    headerLine := headerLine
    overviewText := overviewText
    genre := genreList
    runtime := runtime
    rating := rating
    backdrop := backdrop
    imdbId := imdbId }

/-- Lookup in an association list modelling a JS `Map` (first binding of the
key wins). -/
def mlookup {α : Type} : List (String × α) → String → Option α
  | [], _ => none
  | (k', v) :: rest, k => if k' = k then some v else mlookup rest k

/-- `Map.set`: replace the first binding of the key, or append a new one. -/
def minsert {α : Type} : List (String × α) → String → α → List (String × α)
  | [], k, v => [(k, v)]
  | (k', v') :: rest, k, v =>
    if k' = k then (k, v) :: rest else (k', v') :: minsert rest k v

/-- `Map.delete`: remove every binding of the key. -/
def merase {α : Type} : List (String × α) → String → List (String × α)
  | [], _ => []
  | (k', v') :: rest, k =>
    if k' = k then merase rest k else (k', v') :: merase rest k

theorem mlookup_minsert_self {α : Type} (m : List (String × α)) (k : String) (v : α) :
    mlookup (minsert m k v) k = some v := by
  induction m with
  | nil => simp [minsert, mlookup]
  | cons p rest ih =>
    obtain ⟨k', v'⟩ := p
    by_cases h : k' = k
    · simp [minsert, h, mlookup]
    · simp [minsert, h, mlookup, ih]

theorem mlookup_minsert_ne {α : Type} (m : List (String × α)) (k k' : String) (v : α)
    (h : k ≠ k') : mlookup (minsert m k v) k' = mlookup m k' := by
  induction m with
  | nil => simp [minsert, mlookup, h]
  | cons p rest ih =>
    obtain ⟨k₀, v₀⟩ := p
    by_cases h0 : k₀ = k
    · subst h0
      simp [minsert, mlookup, h]
    · simp [minsert, h0, mlookup, ih]

theorem mlookup_merase_self {α : Type} (m : List (String × α)) (k : String) :
    mlookup (merase m k) k = none := by
  induction m with
  | nil => simp [merase, mlookup]
  | cons p rest ih =>
    obtain ⟨k₀, v₀⟩ := p
    by_cases h0 : k₀ = k
    · simp [merase, h0, ih]
    · simp [merase, h0, mlookup, ih]

theorem mlookup_merase_ne {α : Type} (m : List (String × α)) (k k' : String)
    (h : k ≠ k') : mlookup (merase m k) k' = mlookup m k' := by
  induction m with
  | nil => simp [merase]
  | cons p rest ih =>
    obtain ⟨k₀, v₀⟩ := p
    by_cases h0 : k₀ = k
    · subst h0
      simp [merase, mlookup, h, ih]
    · simp [merase, h0, mlookup, ih]

/-- One entry of `debouncedSenders`: the most specific event seen so far, the
scheduled fire time of its 30-second `setTimeout` (the timer handle), and the
request `config` captured by the timer callback's closure. -/
structure PendingAgg where
  latestData : Event
  fireAt : Nat
  config : Config
deriving DecidableEq

/-- One entry of `sentNotifications`: the granularity level already
notified.  (The stored `cleanupTimer` handle is modelled by the engine
state's list of scheduled cleanups; the source never cancels it.) -/
structure SuppressionRecord where
  level : Nat
deriving DecidableEq

/-- The module-level mutable state: the two per-key maps, plus every
scheduled (and not yet fired) 24-hour cleanup `setTimeout` as a pair of key
and fire time. -/
structure EngineState where
  debouncedSenders : List (String × PendingAgg)
  sentNotifications : List (String × SuppressionRecord)
  cleanups : List (String × Nat)
deriving DecidableEq

/-- The engine state at process start: all maps empty, no timers. -/
def initialState : EngineState :=
  { debouncedSenders := [], sentNotifications := [], cleanups := [] }

/-- `sentNotifications.has(SeriesId) ? sentNotifications.get(SeriesId).level : 0`
(an absent `SeriesId` is never a key of the map). -/
def sentLevelFor (s : EngineState) (seriesId : Option String) : Nat :=
  match seriesId with
  | some k =>
    match mlookup s.sentNotifications k with
    | some r => r.level
    | none => 0
  | none => 0

/-- The state update of the debounce branch of `handleJellyfinWebhook`:
create the pending aggregation (scheduling its flush 30 seconds out and
capturing `config` in the timer closure) when the key has none, then replace
the held event when the incoming level is at least the held level. -/
def debounceSubmit (s : EngineState) (key : String) (data : Event) (config : Config) (now : Nat) :
    EngineState :=
  let s1 :=
    if (mlookup s.debouncedSenders key).isNone then
      { s with debouncedSenders :=
          minsert s.debouncedSenders key ⟨data, now + 30000, config⟩ }
    else s
  match mlookup s1.debouncedSenders key with
  | some deb =>
    if getItemLevel deb.latestData.ItemType ≤ getItemLevel data.ItemType then
      { s1 with debouncedSenders :=
          minsert s1.debouncedSenders key { deb with latestData := data } }
    else s1
  | none => s1

/-- The webhook handler's possible responses to the caller. -/
inductive WebhookResponse where
  | noValidData
  | typeIgnored
  | configIncomplete
  | movieSent
  | skippedSuppressed
  | tvSentNoSeriesId
  | debounced
  | otherSent
  | internalError
deriving DecidableEq

/-- HTTP status code of each response. -/
def WebhookResponse.status : WebhookResponse → Nat
  | .noValidData => 400
  | .typeIgnored => 200
  | .configIncomplete => 404
  | .movieSent => 200
  | .skippedSuppressed => 200
  | .tvSentNoSeriesId => 200
  | .debounced => 200
  | .otherSent => 200
  | .internalError => 500

/-- `handleJellyfinWebhook`, processing one webhook request against the
engine state at time `now`.  `cfg` is the configuration store's answer for
the guild; `dispatchOk` is the outcome the notification sink would give an
immediate dispatch (a failed `channel` fetch or `send` throws, which the
handler's catch-all turns into a 500).  Returns the new state, the response,
and the notification composed on an immediate dispatch attempt. -/
def handleJellyfinWebhook (env : Env) (s : EngineState) (now : Nat)
    (cfg : Option Config) (tmdbApiKey omdbApiKey : Option String)
    (data : Event) (dispatchOk : Bool) :
    EngineState × WebhookResponse × Option Notification :=
  if ¬ jsTruthy data.ItemId then (s, .noValidData, none)
  else if data.NotificationType ≠ "ItemAdded" then (s, .typeIgnored, none)
  else
    match cfg with
    | none => (s, .configIncomplete, none)
    | some c0 =>
      if ¬ (jsTruthy c0.notification_channel_id ∧ jsTruthy c0.jellyfin_server_url) then
        (s, .configIncomplete, none)
      else
        let config := { c0 with tmdb_api_key := tmdbApiKey, omdb_api_key := omdbApiKey }
        if data.ItemType = "Movie" then
          let n := processAndSendNotification env data config
          if dispatchOk then (s, .movieSent, some n) else (s, .internalError, some n)
        else if data.ItemType = "Series" ∨ data.ItemType = "Season" ∨ data.ItemType = "Episode" then
          let sentLevel := sentLevelFor s data.SeriesId
          let currentLevel := getItemLevel data.ItemType
          if currentLevel ≤ sentLevel then (s, .skippedSuppressed, none)
          else if ¬ jsTruthy data.SeriesId then
            let n := processAndSendNotification env data config
            if dispatchOk then (s, .tvSentNoSeriesId, some n) else (s, .internalError, some n)
          else
            match data.SeriesId with
            | some key => (debounceSubmit s key data config now, .debounced, none)
            | none => (s, .debounced, none)
        else
          let n := processAndSendNotification env data config
          if dispatchOk then (s, .otherSent, some n) else (s, .internalError, some n)

/-- The 30-second debounce timer for `key` firing at time `now`: compose and
dispatch the held event with the closure-captured config; only when the
dispatch does not throw, record the sent level, schedule the 24-hour cleanup
and remove the pending aggregation.  Returns the payload handed to the
composer. -/
def fireDebounce (env : Env) (s : EngineState) (key : String) (now : Nat) (dispatchOk : Bool) :
    EngineState × Option Notification :=
  match mlookup s.debouncedSenders key with
  | none => (s, none)
  | some deb =>
    let n := processAndSendNotification env deb.latestData deb.config
    if dispatchOk then
      let levelSent := getItemLevel deb.latestData.ItemType
      ({ debouncedSenders := merase s.debouncedSenders key,
         sentNotifications := minsert s.sentNotifications key ⟨levelSent⟩,
         cleanups := (key, now + 24 * 60 * 60 * 1000) :: s.cleanups }, some n)
    else (s, some n)

/-- A scheduled 24-hour cleanup timer `(key, t)` firing:
`sentNotifications.delete(key)`, unconditionally. -/
def fireCleanup (s : EngineState) (key : String) (t : Nat) : EngineState :=
  if (key, t) ∈ s.cleanups then
    { s with sentNotifications := merase s.sentNotifications key,
             cleanups := s.cleanups.erase (key, t) }
  else s

/-- One atomic transition of the single-threaded engine: a webhook request,
a debounce timer firing, or a cleanup timer firing. -/
inductive Step : EngineState → EngineState → Prop where
  | submit (s : EngineState) (env : Env) (now : Nat) (cfg : Option Config)
      (tmdbApiKey omdbApiKey : Option String) (data : Event) (dispatchOk : Bool) :
      Step s (handleJellyfinWebhook env s now cfg tmdbApiKey omdbApiKey data dispatchOk).1
  | flush (s : EngineState) (env : Env) (key : String) (now : Nat) (dispatchOk : Bool) :
      Step s (fireDebounce env s key now dispatchOk).1
  | cleanup (s : EngineState) (key : String) (t : Nat) :
      Step s (fireCleanup s key t)

/-- States the engine can reach from process start. -/
inductive Reachable : EngineState → Prop where
  | init : Reachable initialState
  | step {s s' : EngineState} : Reachable s → Step s s' → Reachable s'

/-- Process a list of webhook requests `(data, now, cfg)` in order (the
handler's returned state does not depend on the immediate-dispatch outcome,
which is therefore fixed). -/
def submitMany (env : Env) (tmdbApiKey omdbApiKey : Option String) :
    EngineState → List (Event × Nat × Option Config) → EngineState
  | s, [] => s
  | s, (data, now, cfg) :: rest =>
    submitMany env tmdbApiKey omdbApiKey
      (handleJellyfinWebhook env s now cfg tmdbApiKey omdbApiKey data true).1 rest

/-- A configuration that passes the handler's completeness validation. -/
def CompleteConfig (c : Config) : Prop :=
  jsTruthy c.notification_channel_id = true ∧ jsTruthy c.jellyfin_server_url = true

/-- A configuration-store answer that is present and complete. -/
def CompleteOpt (oc : Option Config) : Prop :=
  ∃ c, oc = some c ∧ CompleteConfig c

/-- Two engine states agree on the suppression map and on the pending
aggregation for `key`, which exists and still carries the captured
configuration `cfg`. -/
def TrackedPending (key : String) (cfg : Config) (sA sB : EngineState) : Prop :=
  sA.sentNotifications = sB.sentNotifications ∧
  mlookup sA.debouncedSenders key = mlookup sB.debouncedSenders key ∧
  ∃ deb, mlookup sA.debouncedSenders key = some deb ∧ deb.config = cfg

/-- Invariant: a pending aggregation coexisting with a suppression record
for the same key always holds an event of strictly higher level. -/
def PendingAboveSent (s : EngineState) : Prop :=
  ∀ k deb r, mlookup s.debouncedSenders k = some deb →
    mlookup s.sentNotifications k = some r →
    r.level < getItemLevel deb.latestData.ItemType

/-- Provider environment for the concrete runs: both providers return
nothing. -/
def envW : Env := { tmdb := fun _ _ => none, omdb := fun _ => none }

/-- A complete guild configuration for the concrete runs. -/
def cfgW : Config :=
  { notification_channel_id := some "chan", jellyfin_server_url := some "http://jf",
    color_notification := none, tmdb_api_key := none, omdb_api_key := none }

/-- `cfgW` after an admin removed the notification channel (incomplete). -/
def cfgBad : Config := { cfgW with notification_channel_id := none }

/-- A first episode-added event for series `S1`. -/
def eEp : Event :=
  { ItemId := some "i1", NotificationType := "ItemAdded", ItemType := "Episode",
    SeriesId := some "S1", Name := some "Pilot", SeriesName := some "Show",
    IndexNumber := some 1, ParentIndexNumber := some 1, Year := some 2024,
    Overview := none, Genres := [], Provider_imdb := none, Provider_tmdb := none,
    ServerUrl := some "http://jf/", ServerId := some "srv" }

/-- A second episode-added event for series `S1`. -/
def eEp2 : Event := { eEp with ItemId := some "i2", Name := some "Ep2", IndexNumber := some 2 }

/-- A season-added event for series `S1`. -/
def eSeason : Event := { eEp with ItemId := some "i3", ItemType := "Season", Name := none }

/-- A movie-added event (it also carries a `SeriesId`, which the movie path
never consults). -/
def eMovie : Event := { eEp with ItemId := some "i4", ItemType := "Movie", Name := some "Film" }

/-- An event of an item type outside the four known ones, carrying a
`SeriesId`; it takes the final immediate path. -/
def eOther : Event := { eEp with ItemId := some "i6", ItemType := "Other", Name := some "Extra" }

/-- An episode event whose `SeriesId` is the empty string (falsy in JS); it
takes the no-series-key immediate path. -/
def eEpNoKey : Event := { eEp with ItemId := some "i7", SeriesId := some "" }

/-- Primary-provider metadata carrying a 45-minute runtime and nothing
else. -/
def detailsR : Details :=
  { runtime := some 45, overview := none, genres := none, backdrops := [],
    backdrop_path := none, external_imdb := none, crew := none }

/-- Provider environment in which TMDB knows the item (runtime 45 minutes)
and OMDb returns nothing. -/
def envR : Env := { tmdb := fun _ _ => some detailsR, omdb := fun _ => none }

/-- A series-added event carrying a TMDB id. -/
def eSeries : Event :=
  { eEp with ItemId := some "i5", ItemType := "Series", Name := some "Show",
             Provider_tmdb := some "42" }

/-- `cfgW` with a TMDB API key, so the primary lookup runs. -/
def cfgR : Config := { cfgW with tmdb_api_key := some "tmdbkey" }

/-- State after submitting `eEp` at t = 0 to the fresh engine. -/
def s1W : EngineState :=
  (handleJellyfinWebhook envW initialState 0 (some cfgW) none none eEp true).1

/-- State after further submitting `eEp2` at t = 5 s. -/
def s2W : EngineState :=
  (handleJellyfinWebhook envW s1W 5000 (some cfgW) none none eEp2 true).1

/-- State after further submitting `eSeason` at t = 10 s. -/
def s3W : EngineState :=
  (handleJellyfinWebhook envW s2W 10000 (some cfgW) none none eSeason true).1

/-- State after the debounce timer for `S1` fired successfully at t = 30 s. -/
def s4W : EngineState := (fireDebounce envW s3W "S1" 30000 true).1

/-- State after `eEp` alone was flushed successfully at t = 30 s. -/
def t2W : EngineState := (fireDebounce envW s1W "S1" 30000 true).1

/-- `t2W` after submitting `eSeason` at t = 60 s. -/
def t3W : EngineState :=
  (handleJellyfinWebhook envW t2W 60000 (some cfgW) none none eSeason true).1

/-- `t3W` after the new debounce timer fired successfully at t = 90 s,
refreshing the suppression record for `S1`. -/
def t4W : EngineState := (fireDebounce envW t3W "S1" 90000 true).1

theorem minsert_minsert {α : Type} (m : List (String × α)) (k : String) (v w : α) :
    minsert (minsert m k v) k w = minsert m k w := by
  induction m with
  | nil => simp [minsert]
  | cons p rest ih =>
    obtain ⟨k₀, v₀⟩ := p
    by_cases h0 : k₀ = k
    · simp [minsert, h0]
    · simp [minsert, h0, ih]

theorem debounceSubmit_of_lookup_none (s : EngineState) (key : String) (data : Event)
    (config : Config) (now : Nat) (h : mlookup s.debouncedSenders key = none) :
    debounceSubmit s key data config now =
      { s with debouncedSenders :=
          minsert s.debouncedSenders key ⟨data, now + 30000, config⟩ } := by
  unfold debounceSubmit
  simp only [h, Option.isNone_none, if_true, mlookup_minsert_self]
  simp [minsert_minsert]

theorem debounceSubmit_of_lookup_some (s : EngineState) (key : String) (data : Event)
    (config : Config) (now : Nat) (deb : PendingAgg)
    (h : mlookup s.debouncedSenders key = some deb) :
    debounceSubmit s key data config now =
      if getItemLevel deb.latestData.ItemType ≤ getItemLevel data.ItemType then
        { s with debouncedSenders :=
            minsert s.debouncedSenders key { deb with latestData := data } }
      else s := by
  unfold debounceSubmit
  simp [h]

theorem debounceSubmit_sent (s : EngineState) (key : String) (data : Event)
    (config : Config) (now : Nat) :
    (debounceSubmit s key data config now).sentNotifications = s.sentNotifications := by
  rcases h : mlookup s.debouncedSenders key with _ | deb
  · rw [debounceSubmit_of_lookup_none s key data config now h]
  · rw [debounceSubmit_of_lookup_some s key data config now deb h]
    split <;> rfl

theorem debounceSubmit_cleanups (s : EngineState) (key : String) (data : Event)
    (config : Config) (now : Nat) :
    (debounceSubmit s key data config now).cleanups = s.cleanups := by
  rcases h : mlookup s.debouncedSenders key with _ | deb
  · rw [debounceSubmit_of_lookup_none s key data config now h]
  · rw [debounceSubmit_of_lookup_some s key data config now deb h]
    split <;> rfl

theorem debounceSubmit_lookup_ne (s : EngineState) (key : String) (data : Event)
    (config : Config) (now : Nat) (k' : String) (h : key ≠ k') :
    mlookup (debounceSubmit s key data config now).debouncedSenders k' =
      mlookup s.debouncedSenders k' := by
  rcases h0 : mlookup s.debouncedSenders key with _ | deb
  · rw [debounceSubmit_of_lookup_none s key data config now h0]
    exact mlookup_minsert_ne _ _ _ _ h
  · rw [debounceSubmit_of_lookup_some s key data config now deb h0]
    split
    · exact mlookup_minsert_ne _ _ _ _ h
    · rfl

theorem debounceSubmit_lookup_self_none (s : EngineState) (key : String) (data : Event)
    (config : Config) (now : Nat) (h : mlookup s.debouncedSenders key = none) :
    mlookup (debounceSubmit s key data config now).debouncedSenders key =
      some ⟨data, now + 30000, config⟩ := by
  rw [debounceSubmit_of_lookup_none s key data config now h]
  exact mlookup_minsert_self _ _ _

theorem debounceSubmit_lookup_self_some (s : EngineState) (key : String) (data : Event)
    (config : Config) (now : Nat) (deb : PendingAgg)
    (h : mlookup s.debouncedSenders key = some deb) :
    mlookup (debounceSubmit s key data config now).debouncedSenders key =
      some (if getItemLevel deb.latestData.ItemType ≤ getItemLevel data.ItemType then
              { deb with latestData := data } else deb) := by
  rw [debounceSubmit_of_lookup_some s key data config now deb h]
  split
  · exact mlookup_minsert_self _ _ _
  · exact h

theorem handle_invalid (env : Env) (s : EngineState) (now : Nat) (cfg : Option Config)
    (tk ok : Option String) (data : Event) (dOk : Bool)
    (h : jsTruthy data.ItemId = false) :
    handleJellyfinWebhook env s now cfg tk ok data dOk = (s, .noValidData, none) := by
  unfold handleJellyfinWebhook
  simp [h]

theorem handle_typeIgnored (env : Env) (s : EngineState) (now : Nat) (cfg : Option Config)
    (tk ok : Option String) (data : Event) (dOk : Bool)
    (hid : jsTruthy data.ItemId = true) (ht : data.NotificationType ≠ "ItemAdded") :
    handleJellyfinWebhook env s now cfg tk ok data dOk = (s, .typeIgnored, none) := by
  unfold handleJellyfinWebhook
  simp [hid, ht]

theorem handle_noConfig (env : Env) (s : EngineState) (now : Nat)
    (tk ok : Option String) (data : Event) (dOk : Bool)
    (hid : jsTruthy data.ItemId = true) (ht : data.NotificationType = "ItemAdded") :
    handleJellyfinWebhook env s now none tk ok data dOk = (s, .configIncomplete, none) := by
  unfold handleJellyfinWebhook
  simp [hid, ht]

theorem handle_incompleteConfig (env : Env) (s : EngineState) (now : Nat) (c0 : Config)
    (tk ok : Option String) (data : Event) (dOk : Bool)
    (hid : jsTruthy data.ItemId = true) (ht : data.NotificationType = "ItemAdded")
    (hc : ¬ (jsTruthy c0.notification_channel_id = true ∧
             jsTruthy c0.jellyfin_server_url = true)) :
    handleJellyfinWebhook env s now (some c0) tk ok data dOk = (s, .configIncomplete, none) := by
  unfold handleJellyfinWebhook
  simp [hid, ht, hc]

theorem handle_movie (env : Env) (s : EngineState) (now : Nat) (c0 : Config)
    (tk ok : Option String) (data : Event) (dOk : Bool)
    (hid : jsTruthy data.ItemId = true) (ht : data.NotificationType = "ItemAdded")
    (hc1 : jsTruthy c0.notification_channel_id = true)
    (hc2 : jsTruthy c0.jellyfin_server_url = true)
    (hm : data.ItemType = "Movie") :
    handleJellyfinWebhook env s now (some c0) tk ok data dOk =
      (s, if dOk then .movieSent else .internalError,
       some (processAndSendNotification env data
         { c0 with tmdb_api_key := tk, omdb_api_key := ok })) := by
  unfold handleJellyfinWebhook
  cases dOk <;> simp [hid, ht, hc1, hc2, hm]

theorem handle_tv_skip (env : Env) (s : EngineState) (now : Nat) (c0 : Config)
    (tk ok : Option String) (data : Event) (dOk : Bool)
    (hid : jsTruthy data.ItemId = true) (ht : data.NotificationType = "ItemAdded")
    (hc1 : jsTruthy c0.notification_channel_id = true)
    (hc2 : jsTruthy c0.jellyfin_server_url = true)
    (htv : data.ItemType = "Series" ∨ data.ItemType = "Season" ∨ data.ItemType = "Episode")
    (hlev : getItemLevel data.ItemType ≤ sentLevelFor s data.SeriesId) :
    handleJellyfinWebhook env s now (some c0) tk ok data dOk =
      (s, .skippedSuppressed, none) := by
  unfold handleJellyfinWebhook
  rcases htv with h | h | h <;> rw [h] at hlev <;> simp [hid, ht, hc1, hc2, h, hlev]

theorem handle_tv_noKey (env : Env) (s : EngineState) (now : Nat) (c0 : Config)
    (tk ok : Option String) (data : Event) (dOk : Bool)
    (hid : jsTruthy data.ItemId = true) (ht : data.NotificationType = "ItemAdded")
    (hc1 : jsTruthy c0.notification_channel_id = true)
    (hc2 : jsTruthy c0.jellyfin_server_url = true)
    (htv : data.ItemType = "Series" ∨ data.ItemType = "Season" ∨ data.ItemType = "Episode")
    (hpass : sentLevelFor s data.SeriesId < getItemLevel data.ItemType)
    (hk : jsTruthy data.SeriesId = false) :
    handleJellyfinWebhook env s now (some c0) tk ok data dOk =
      (s, if dOk then .tvSentNoSeriesId else .internalError,
       some (processAndSendNotification env data
         { c0 with tmdb_api_key := tk, omdb_api_key := ok })) := by
  unfold handleJellyfinWebhook
  rcases htv with h | h | h <;> rw [h] at hpass <;> cases dOk <;>
    simp [hid, ht, hc1, hc2, h, hk, Nat.not_le.mpr hpass]

theorem handle_tv_debounce (env : Env) (s : EngineState) (now : Nat) (c0 : Config)
    (tk ok : Option String) (data : Event) (dOk : Bool) (key : String)
    (hid : jsTruthy data.ItemId = true) (ht : data.NotificationType = "ItemAdded")
    (hc1 : jsTruthy c0.notification_channel_id = true)
    (hc2 : jsTruthy c0.jellyfin_server_url = true)
    (htv : data.ItemType = "Series" ∨ data.ItemType = "Season" ∨ data.ItemType = "Episode")
    (hpass : sentLevelFor s data.SeriesId < getItemLevel data.ItemType)
    (hkey : data.SeriesId = some key) (hk : key ≠ "") :
    handleJellyfinWebhook env s now (some c0) tk ok data dOk =
      (debounceSubmit s key data { c0 with tmdb_api_key := tk, omdb_api_key := ok } now,
       .debounced, none) := by
  have hks : jsTruthy (some key) = true := by
    simp [jsTruthy, hk]
  unfold handleJellyfinWebhook
  rcases htv with h | h | h <;> rw [h] at hpass <;> rw [hkey] at hpass <;>
    simp [hid, ht, hc1, hc2, h, hkey, hks, Nat.not_le.mpr hpass]

theorem handle_other (env : Env) (s : EngineState) (now : Nat) (c0 : Config)
    (tk ok : Option String) (data : Event) (dOk : Bool)
    (hid : jsTruthy data.ItemId = true) (ht : data.NotificationType = "ItemAdded")
    (hc1 : jsTruthy c0.notification_channel_id = true)
    (hc2 : jsTruthy c0.jellyfin_server_url = true)
    (hm : data.ItemType ≠ "Movie") (h3 : data.ItemType ≠ "Series")
    (h2 : data.ItemType ≠ "Season") (h1 : data.ItemType ≠ "Episode") :
    handleJellyfinWebhook env s now (some c0) tk ok data dOk =
      (s, if dOk then .otherSent else .internalError,
       some (processAndSendNotification env data
         { c0 with tmdb_api_key := tk, omdb_api_key := ok })) := by
  unfold handleJellyfinWebhook
  cases dOk <;> simp [hid, ht, hc1, hc2, hm, h3, h2, h1]

theorem handle_state_eq_or (env : Env) (s : EngineState) (now : Nat) (cfg : Option Config)
    (tk ok : Option String) (data : Event) (dOk : Bool) :
    (handleJellyfinWebhook env s now cfg tk ok data dOk).1 = s ∨
    ∃ key c0, cfg = some c0 ∧ data.SeriesId = some key ∧ key ≠ "" ∧
      sentLevelFor s (some key) < getItemLevel data.ItemType ∧
      (data.ItemType = "Series" ∨ data.ItemType = "Season" ∨ data.ItemType = "Episode") ∧
      (handleJellyfinWebhook env s now cfg tk ok data dOk).1 =
        debounceSubmit s key data { c0 with tmdb_api_key := tk, omdb_api_key := ok } now := by
  by_cases hid : jsTruthy data.ItemId = true
  · by_cases ht : data.NotificationType = "ItemAdded"
    · match cfg with
      | none =>
        left
        rw [handle_noConfig env s now tk ok data dOk hid ht]
      | some c0 =>
        by_cases hc : jsTruthy c0.notification_channel_id = true ∧
            jsTruthy c0.jellyfin_server_url = true
        · obtain ⟨hc1, hc2⟩ := hc
          by_cases hm : data.ItemType = "Movie"
          · left
            rw [handle_movie env s now c0 tk ok data dOk hid ht hc1 hc2 hm]
          · by_cases htv : data.ItemType = "Series" ∨ data.ItemType = "Season" ∨
                data.ItemType = "Episode"
            · by_cases hlev : getItemLevel data.ItemType ≤ sentLevelFor s data.SeriesId
              · left
                rw [handle_tv_skip env s now c0 tk ok data dOk hid ht hc1 hc2 htv hlev]
              · have hpass := Nat.lt_of_not_le hlev
                by_cases hk : jsTruthy data.SeriesId = true
                · match hkey : data.SeriesId with
                  | none =>
                    rw [hkey] at hk
                    simp [jsTruthy] at hk
                  | some key =>
                    have hkne : key ≠ "" := by
                      rw [hkey] at hk
                      simpa [jsTruthy] using hk
                    right
                    refine ⟨key, c0, rfl, rfl, hkne, ?_, htv, ?_⟩
                    · rw [hkey] at hpass
                      exact hpass
                    · rw [handle_tv_debounce env s now c0 tk ok data dOk key hid ht hc1 hc2
                        htv hpass hkey hkne]
                · left
                  rw [handle_tv_noKey env s now c0 tk ok data dOk hid ht hc1 hc2 htv hpass
                    (by simpa using hk)]
            · push_neg at htv
              obtain ⟨h3, h2, h1⟩ := htv
              left
              rw [handle_other env s now c0 tk ok data dOk hid ht hc1 hc2 hm h3 h2 h1]
        · left
          rw [handle_incompleteConfig env s now c0 tk ok data dOk hid ht hc]
    · left
      rw [handle_typeIgnored env s now cfg tk ok data dOk hid ht]
  · left
    rw [handle_invalid env s now cfg tk ok data dOk (by simpa using hid)]

theorem handle_sent_eq (env : Env) (s : EngineState) (now : Nat) (cfg : Option Config)
    (tk ok : Option String) (data : Event) (dOk : Bool) :
    (handleJellyfinWebhook env s now cfg tk ok data dOk).1.sentNotifications =
      s.sentNotifications := by
  rcases handle_state_eq_or env s now cfg tk ok data dOk with h | ⟨key, c0, _, _, _, _, _, h⟩
  · rw [h]
  · rw [h, debounceSubmit_sent]

theorem handle_cleanups_eq (env : Env) (s : EngineState) (now : Nat) (cfg : Option Config)
    (tk ok : Option String) (data : Event) (dOk : Bool) :
    (handleJellyfinWebhook env s now cfg tk ok data dOk).1.cleanups = s.cleanups := by
  rcases handle_state_eq_or env s now cfg tk ok data dOk with h | ⟨key, c0, _, _, _, _, _, h⟩
  · rw [h]
  · rw [h, debounceSubmit_cleanups]

theorem fireDebounce_of_none (env : Env) (s : EngineState) (key : String) (now : Nat)
    (dOk : Bool) (h : mlookup s.debouncedSenders key = none) :
    fireDebounce env s key now dOk = (s, none) := by
  unfold fireDebounce
  simp [h]

theorem fireDebounce_of_some_ok (env : Env) (s : EngineState) (key : String) (now : Nat)
    (deb : PendingAgg) (h : mlookup s.debouncedSenders key = some deb) :
    fireDebounce env s key now true =
      ({ debouncedSenders := merase s.debouncedSenders key,
         sentNotifications :=
           minsert s.sentNotifications key ⟨getItemLevel deb.latestData.ItemType⟩,
         cleanups := (key, now + 24 * 60 * 60 * 1000) :: s.cleanups },
       some (processAndSendNotification env deb.latestData deb.config)) := by
  unfold fireDebounce
  simp [h]

theorem fireDebounce_of_some_fail (env : Env) (s : EngineState) (key : String) (now : Nat)
    (deb : PendingAgg) (h : mlookup s.debouncedSenders key = some deb) :
    fireDebounce env s key now false =
      (s, some (processAndSendNotification env deb.latestData deb.config)) := by
  unfold fireDebounce
  simp [h]

theorem fireCleanup_of_mem (s : EngineState) (key : String) (t : Nat)
    (h : (key, t) ∈ s.cleanups) :
    fireCleanup s key t =
      { s with sentNotifications := merase s.sentNotifications key,
               cleanups := s.cleanups.erase (key, t) } := by
  unfold fireCleanup
  simp [h]

theorem fireCleanup_of_not_mem (s : EngineState) (key : String) (t : Nat)
    (h : (key, t) ∉ s.cleanups) :
    fireCleanup s key t = s := by
  unfold fireCleanup
  simp [h]

theorem sentLevelFor_of_some (s : EngineState) (k : String) (r : SuppressionRecord)
    (h : mlookup s.sentNotifications k = some r) :
    sentLevelFor s (some k) = r.level := by
  simp [sentLevelFor, h]

theorem pendingAboveSent_step {s s' : EngineState} (hs : PendingAboveSent s)
    (hstep : Step s s') : PendingAboveSent s' := by
  cases hstep with
  | submit env now cfg tk ok data dOk =>
    rcases handle_state_eq_or env s now cfg tk ok data dOk with
      h | ⟨key, c0, _, _, _, hpass, _, h⟩
    · rw [h]
      exact hs
    · rw [h]
      intro k deb r hd hr
      rw [debounceSubmit_sent] at hr
      by_cases hk : key = k
      · subst hk
        rw [sentLevelFor_of_some s key r hr] at hpass
        rcases h0 : mlookup s.debouncedSenders key with _ | deb0
        · rw [debounceSubmit_lookup_self_none _ _ _ _ _ h0] at hd
          cases hd
          exact hpass
        · rw [debounceSubmit_lookup_self_some _ _ _ _ _ deb0 h0] at hd
          cases hd
          split
          · exact hpass
          · exact hs key deb0 r h0 hr
      · rw [debounceSubmit_lookup_ne _ _ _ _ _ _ hk] at hd
        exact hs k deb r hd hr
  | flush env key now dOk =>
    rcases h0 : mlookup s.debouncedSenders key with _ | deb0
    · rw [fireDebounce_of_none env s key now dOk h0]
      exact hs
    · cases dOk
      · rw [fireDebounce_of_some_fail env s key now deb0 h0]
        exact hs
      · rw [fireDebounce_of_some_ok env s key now deb0 h0]
        intro k deb r hd hr
        by_cases hk : key = k
        · subst hk
          rw [mlookup_merase_self] at hd
          cases hd
        · rw [mlookup_merase_ne _ _ _ hk] at hd
          rw [mlookup_minsert_ne _ _ _ _ hk] at hr
          exact hs k deb r hd hr
  | cleanup key t =>
    by_cases hmem : (key, t) ∈ s.cleanups
    · rw [fireCleanup_of_mem s key t hmem]
      intro k deb r hd hr
      by_cases hk : key = k
      · subst hk
        rw [mlookup_merase_self] at hr
        cases hr
      · rw [mlookup_merase_ne _ _ _ hk] at hr
        exact hs k deb r hd hr
    · rw [fireCleanup_of_not_mem s key t hmem]
      exact hs

theorem reachable_pendingAboveSent {s : EngineState} (h : Reachable s) :
    PendingAboveSent s := by
  induction h with
  | init =>
    intro k deb r hd _
    cases hd
  | step _ hstep ih => exact pendingAboveSent_step ih hstep

theorem sent_mono_step {s s' : EngineState} (hs : PendingAboveSent s) (hstep : Step s s')
    (k : String) (r r' : SuppressionRecord)
    (h : mlookup s.sentNotifications k = some r)
    (h' : mlookup s'.sentNotifications k = some r') : r.level ≤ r'.level := by
  cases hstep with
  | submit env now cfg tk ok data dOk =>
    rw [handle_sent_eq, h] at h'
    cases h'
    exact le_refl _
  | flush env key now dOk =>
    rcases h0 : mlookup s.debouncedSenders key with _ | deb0
    · rw [fireDebounce_of_none env s key now dOk h0, h] at h'
      cases h'
      exact le_refl _
    · cases dOk
      · rw [fireDebounce_of_some_fail env s key now deb0 h0, h] at h'
        cases h'
        exact le_refl _
      · rw [fireDebounce_of_some_ok env s key now deb0 h0] at h'
        by_cases hk : key = k
        · subst hk
          rw [mlookup_minsert_self] at h'
          cases h'
          exact le_of_lt (hs key deb0 r h0 h)
        · rw [mlookup_minsert_ne _ _ _ _ hk, h] at h'
          cases h'
          exact le_refl _
  | cleanup key t =>
    by_cases hmem : (key, t) ∈ s.cleanups
    · rw [fireCleanup_of_mem s key t hmem] at h'
      by_cases hk : key = k
      · subst hk
        rw [mlookup_merase_self] at h'
        cases h'
      · rw [mlookup_merase_ne _ _ _ hk, h] at h'
        cases h'
        exact le_refl _
    · rw [fireCleanup_of_not_mem s key t hmem, h] at h'
      cases h'
      exact le_refl _

/-- Claim C1 (corrected), counterexample to the claim as stated: with a
pending aggregation for `S1` held, the debounce timer fires with a failing
dispatch, yet the pending aggregation for `S1` is still present afterwards
(and no suppression record was created) — so the entry is not gone
regardless of the dispatch outcome. -/
theorem flush_failure_keeps_pending :
    mlookup (fireDebounce envW s1W "S1" 30000 false).1.debouncedSenders "S1" =
      some ⟨eEp, 30000, cfgW⟩ ∧
    mlookup (fireDebounce envW s1W "S1" 30000 false).1.sentNotifications "S1" = none := by
  constructor <;> decide

/-- Claim C1 (amended): when the debounce timer for a key with a pending
aggregation fires, the held event is handed to the composer in every case;
exactly when composition and dispatch succeed, the pending aggregation is
removed, the suppression record is set to the flushed event's level and a
24-hour expiry is scheduled; on a dispatch failure the whole engine state —
the pending aggregation included — is left unchanged. -/
theorem flush_removal_iff_success (env : Env) (s : EngineState) (key : String) (now : Nat)
    (deb : PendingAgg) (h : mlookup s.debouncedSenders key = some deb) :
    fireDebounce env s key now true =
      ({ debouncedSenders := merase s.debouncedSenders key,
         sentNotifications :=
           minsert s.sentNotifications key ⟨getItemLevel deb.latestData.ItemType⟩,
         cleanups := (key, now + 24 * 60 * 60 * 1000) :: s.cleanups },
       some (processAndSendNotification env deb.latestData deb.config)) ∧
    fireDebounce env s key now false =
      (s, some (processAndSendNotification env deb.latestData deb.config)) :=
  ⟨fireDebounce_of_some_ok env s key now deb h, fireDebounce_of_some_fail env s key now deb h⟩

/-- Claim C1, witness: the amended flush behaviour at the concrete pending
aggregation created by `eEp`. -/
theorem flush_removal_iff_success_witness :
    fireDebounce envW s1W "S1" 30000 true =
      ({ debouncedSenders := merase s1W.debouncedSenders "S1",
         sentNotifications := minsert s1W.sentNotifications "S1" ⟨getItemLevel eEp.ItemType⟩,
         cleanups := ("S1", 30000 + 24 * 60 * 60 * 1000) :: s1W.cleanups },
       some (processAndSendNotification envW eEp cfgW)) ∧
    fireDebounce envW s1W "S1" 30000 false =
      (s1W, some (processAndSendNotification envW eEp cfgW)) :=
  flush_removal_iff_success envW s1W "S1" 30000 ⟨eEp, 30000, cfgW⟩ (by decide)

/-- Claim C2 (confirmed): when a pending aggregation exists for the key, a
newly submitted event that reaches the debounce path replaces the held event
exactly when its level is greater than or equal to the held level (so the
most recent event wins at equal level); and submitting levels
[Episode, Episode, Season] for `S1` within one window yields exactly one
flush, carrying the Season-level event. -/
theorem debounce_replace_and_coalesce :
    (∀ (env : Env) (s : EngineState) (now : Nat) (c0 : Config) (tk ok : Option String)
       (data : Event) (dOk : Bool) (key : String) (deb : PendingAgg),
      jsTruthy data.ItemId = true → data.NotificationType = "ItemAdded" →
      jsTruthy c0.notification_channel_id = true → jsTruthy c0.jellyfin_server_url = true →
      (data.ItemType = "Series" ∨ data.ItemType = "Season" ∨ data.ItemType = "Episode") →
      sentLevelFor s data.SeriesId < getItemLevel data.ItemType →
      data.SeriesId = some key → key ≠ "" →
      mlookup s.debouncedSenders key = some deb →
      mlookup (handleJellyfinWebhook env s now (some c0) tk ok data dOk).1.debouncedSenders
          key =
        some (if getItemLevel deb.latestData.ItemType ≤ getItemLevel data.ItemType then
                { deb with latestData := data } else deb)) ∧
    (mlookup s3W.debouncedSenders "S1" = some ⟨eSeason, 30000, cfgW⟩ ∧
     s3W.debouncedSenders.length = 1 ∧
     (fireDebounce envW s3W "S1" 30000 true).2 =
       some (processAndSendNotification envW eSeason cfgW) ∧
     mlookup (fireDebounce envW s3W "S1" 30000 true).1.debouncedSenders "S1" = none ∧
     (fireDebounce envW (fireDebounce envW s3W "S1" 30000 true).1 "S1" 60000 true).2 =
       none) := by
  constructor
  · intro env s now c0 tk ok data dOk key deb hid ht hc1 hc2 htv hpass hkey hkne hdeb
    rw [handle_tv_debounce env s now c0 tk ok data dOk key hid ht hc1 hc2 htv hpass hkey hkne]
    exact debounceSubmit_lookup_self_some s key data _ now deb hdeb
  · refine ⟨by decide, by decide, by decide, by decide, by decide⟩

/-- Claim C2, witness: the replace rule at the concrete state holding `eEp`,
submitting the equal-level `eEp2` — the most recent event wins. -/
theorem debounce_replace_and_coalesce_witness :
    mlookup (handleJellyfinWebhook envW s1W 5000 (some cfgW) none none eEp2
        true).1.debouncedSenders "S1" =
      some (if getItemLevel (PendingAgg.mk eEp 30000 cfgW).latestData.ItemType ≤
              getItemLevel eEp2.ItemType then
              { PendingAgg.mk eEp 30000 cfgW with latestData := eEp2 }
            else PendingAgg.mk eEp 30000 cfgW) :=
  debounce_replace_and_coalesce.1 envW s1W 5000 cfgW none none eEp2 true "S1"
    ⟨eEp, 30000, cfgW⟩ (by decide) (by decide) (by decide) (by decide) (by decide)
    (by decide) (by decide) (by decide) (by decide)

/-- Claim C3 (confirmed): a submission that creates the pending aggregation
for a key schedules its flush exactly 30 seconds (30000 ms) later, and a
submission made while a pending aggregation exists never removes it nor
changes its scheduled flush time — the window is fixed, not sliding. -/
theorem debounce_window_fixed (env : Env) (s : EngineState) (now : Nat)
    (cfg : Option Config) (tk ok : Option String) (data : Event) (dOk : Bool) (K : String) :
    (mlookup s.debouncedSenders K = none →
      ∀ deb, mlookup (handleJellyfinWebhook env s now cfg tk ok data
          dOk).1.debouncedSenders K = some deb →
        deb.fireAt = now + 30000) ∧
    (∀ deb, mlookup s.debouncedSenders K = some deb →
      ∃ deb', mlookup (handleJellyfinWebhook env s now cfg tk ok data
          dOk).1.debouncedSenders K = some deb' ∧
        deb'.fireAt = deb.fireAt) := by
  rcases handle_state_eq_or env s now cfg tk ok data dOk with
    h | ⟨key, c0, _, _, _, _, _, h⟩
  · rw [h]
    constructor
    · intro h0 deb hd
      rw [h0] at hd
      cases hd
    · intro deb hd
      exact ⟨deb, hd, rfl⟩
  · rw [h]
    constructor
    · intro h0 deb hd
      by_cases hk : key = K
      · subst hk
        rw [debounceSubmit_lookup_self_none _ _ _ _ _ h0] at hd
        cases hd
        rfl
      · rw [debounceSubmit_lookup_ne _ _ _ _ _ _ hk, h0] at hd
        cases hd
    · intro deb hd
      by_cases hk : key = K
      · subst hk
        refine ⟨_, debounceSubmit_lookup_self_some _ _ _ _ _ deb hd, ?_⟩
        split <;> rfl
      · rw [debounceSubmit_lookup_ne _ _ _ _ _ _ hk]
        exact ⟨deb, hd, rfl⟩

/-- Claim C3, witness: the first submission schedules the flush at
0 + 30000 ms, and a second submission 20 seconds later leaves the scheduled
flush time unchanged. -/
theorem debounce_window_fixed_witness :
    (∀ deb, mlookup s1W.debouncedSenders "S1" = some deb → deb.fireAt = 0 + 30000) ∧
    (∃ deb', mlookup (handleJellyfinWebhook envW s1W 20000 (some cfgW) none none eEp2
        true).1.debouncedSenders "S1" = some deb' ∧ deb'.fireAt = 30000) := by
  constructor
  · exact (debounce_window_fixed envW initialState 0 (some cfgW) none none eEp true
      "S1").1 (by decide)
  · obtain ⟨deb', hl, hf⟩ :=
      (debounce_window_fixed envW s1W 20000 (some cfgW) none none eEp2 true "S1").2
        ⟨eEp, 30000, cfgW⟩ (by decide)
    exact ⟨deb', hl, hf⟩

/-- Claim C4 (confirmed): a valid, configured, series-keyed TV event whose
level is at most the suppression record's level for its key is dropped: the
engine state is unchanged, no notification is composed or dispatched, and
the caller receives the skip acknowledgement, whose status is 200. -/
theorem suppressed_event_dropped (env : Env) (s : EngineState) (now : Nat) (c0 : Config)
    (tk ok : Option String) (data : Event) (dOk : Bool) (K : String) (r : SuppressionRecord)
    (hid : jsTruthy data.ItemId = true) (ht : data.NotificationType = "ItemAdded")
    (hc1 : jsTruthy c0.notification_channel_id = true)
    (hc2 : jsTruthy c0.jellyfin_server_url = true)
    (htv : data.ItemType = "Series" ∨ data.ItemType = "Season" ∨ data.ItemType = "Episode")
    (hkey : data.SeriesId = some K)
    (hrec : mlookup s.sentNotifications K = some r)
    (hlev : getItemLevel data.ItemType ≤ r.level) :
    handleJellyfinWebhook env s now (some c0) tk ok data dOk =
      (s, .skippedSuppressed, none) ∧
    WebhookResponse.skippedSuppressed.status = 200 := by
  refine ⟨?_, rfl⟩
  apply handle_tv_skip env s now c0 tk ok data dOk hid ht hc1 hc2 htv
  rw [hkey, sentLevelFor_of_some s K r hrec]
  exact hlev

/-- Claim C4, witness: after the Season-level flush for `S1`, a new Episode
event for `S1` is dropped with a 200 acknowledgement and no state change. -/
theorem suppressed_event_dropped_witness :
    handleJellyfinWebhook envW s4W 40000 (some cfgW) none none eEp2 true =
      (s4W, .skippedSuppressed, none) ∧
    WebhookResponse.skippedSuppressed.status = 200 :=
  suppressed_event_dropped envW s4W 40000 cfgW none none eEp2 true "S1" ⟨2⟩
    (by decide) (by decide) (by decide) (by decide) (by decide) (by decide) (by decide)
    (by decide)

/-- Claim C9 (confirmed): a valid, configured event that is a movie, or that
lacks a series identifier, bypasses the debounce coordinator entirely: the
engine state — in particular any suppression record — is untouched and does
not matter, and the notification is composed for immediate dispatch. -/
theorem movie_or_keyless_bypasses (env : Env) (s : EngineState) (now : Nat) (c0 : Config)
    (tk ok : Option String) (data : Event) (dOk : Bool)
    (hid : jsTruthy data.ItemId = true) (ht : data.NotificationType = "ItemAdded")
    (hc1 : jsTruthy c0.notification_channel_id = true)
    (hc2 : jsTruthy c0.jellyfin_server_url = true)
    (hbp : data.ItemType = "Movie" ∨ data.SeriesId = none) :
    (handleJellyfinWebhook env s now (some c0) tk ok data dOk).1 = s ∧
    (handleJellyfinWebhook env s now (some c0) tk ok data dOk).2.2 =
      some (processAndSendNotification env data
        { c0 with tmdb_api_key := tk, omdb_api_key := ok }) := by
  by_cases hm : data.ItemType = "Movie"
  · rw [handle_movie env s now c0 tk ok data dOk hid ht hc1 hc2 hm]
    exact ⟨rfl, rfl⟩
  · have hnone : data.SeriesId = none := by
      rcases hbp with h | h
      · exact absurd h hm
      · exact h
    by_cases htv : data.ItemType = "Series" ∨ data.ItemType = "Season" ∨
        data.ItemType = "Episode"
    · have hpass : sentLevelFor s data.SeriesId < getItemLevel data.ItemType := by
        rw [hnone]
        show 0 < getItemLevel data.ItemType
        rcases htv with h | h | h <;> rw [h] <;> decide
      rw [handle_tv_noKey env s now c0 tk ok data dOk hid ht hc1 hc2 htv hpass
        (by rw [hnone]; rfl)]
      exact ⟨rfl, rfl⟩
    · push_neg at htv
      obtain ⟨h3, h2, h1⟩ := htv
      rw [handle_other env s now c0 tk ok data dOk hid ht hc1 hc2 hm h3 h2 h1]
      exact ⟨rfl, rfl⟩

/-- Claim C9, witness: a movie event submitted while `S1` has a
Season-level suppression record is still composed and dispatched
immediately, leaving the state untouched. -/
theorem movie_or_keyless_bypasses_witness :
    (handleJellyfinWebhook envW s4W 40000 (some cfgW) none none eMovie true).1 = s4W ∧
    (handleJellyfinWebhook envW s4W 40000 (some cfgW) none none eMovie true).2.2 =
      some (processAndSendNotification envW eMovie
        { cfgW with tmdb_api_key := none, omdb_api_key := none }) :=
  movie_or_keyless_bypasses envW s4W 40000 cfgW none none eMovie true
    (by decide) (by decide) (by decide) (by decide) (Or.inl (by decide))

/-- Claim C7 (corrected), counterexample to the claim as stated: a valid,
configured movie event whose immediate dispatch fails makes the handler's
catch-all answer the caller with `internalError`, whose status is 500 — a
dispatch failure on the immediate path is fatal to the webhook response. -/
theorem dispatch_failure_returns_500 :
    (handleJellyfinWebhook envW initialState 0 (some cfgW) none none eMovie
        false).2.1 = .internalError ∧
    WebhookResponse.internalError.status = 500 := by
  constructor <;> decide

/-- Claim C7 (amended): a dispatch failure is invisible to the caller only
on the debounced path, whose response is the 200 acknowledgement regardless
of the dispatch oracle; on every immediate path — a movie, an item type
outside the four known ones (with or without a series key), or a TV event
whose series key is absent or empty and that passes the suppression check —
a dispatch failure surfaces as the 500 `internalError`, and only a
successful dispatch yields a 200. -/
theorem dispatch_failure_surface (env : Env) (s : EngineState) (now : Nat) (c0 : Config)
    (tk ok : Option String) (data : Event) (K : String)
    (hid : jsTruthy data.ItemId = true) (ht : data.NotificationType = "ItemAdded")
    (hc1 : jsTruthy c0.notification_channel_id = true)
    (hc2 : jsTruthy c0.jellyfin_server_url = true) :
    ((data.ItemType = "Series" ∨ data.ItemType = "Season" ∨ data.ItemType = "Episode") →
      data.SeriesId = some K → K ≠ "" →
      sentLevelFor s data.SeriesId < getItemLevel data.ItemType →
      ∀ dOk, (handleJellyfinWebhook env s now (some c0) tk ok data dOk).2.1 = .debounced ∧
        WebhookResponse.debounced.status = 200) ∧
    (data.ItemType = "Movie" ∨
     (data.ItemType ≠ "Series" ∧ data.ItemType ≠ "Season" ∧ data.ItemType ≠ "Episode") ∨
     (jsTruthy data.SeriesId = false ∧
      sentLevelFor s data.SeriesId < getItemLevel data.ItemType) →
      ((handleJellyfinWebhook env s now (some c0) tk ok data false).2.1 = .internalError ∧
        WebhookResponse.internalError.status = 500) ∧
      (handleJellyfinWebhook env s now (some c0) tk ok data true).2.1.status = 200) := by
  constructor
  · intro htv hkey hkne hpass dOk
    rw [handle_tv_debounce env s now c0 tk ok data dOk K hid ht hc1 hc2 htv hpass hkey hkne]
    exact ⟨rfl, rfl⟩
  · intro himm
    by_cases hm : data.ItemType = "Movie"
    · rw [handle_movie env s now c0 tk ok data false hid ht hc1 hc2 hm,
          handle_movie env s now c0 tk ok data true hid ht hc1 hc2 hm]
      exact ⟨⟨rfl, rfl⟩, rfl⟩
    · by_cases htv : data.ItemType = "Series" ∨ data.ItemType = "Season" ∨
          data.ItemType = "Episode"
      · have hnk : jsTruthy data.SeriesId = false ∧
            sentLevelFor s data.SeriesId < getItemLevel data.ItemType := by
          rcases himm with h | h | h
          · exact absurd h hm
          · rcases htv with ht' | ht' | ht'
            · exact absurd ht' h.1
            · exact absurd ht' h.2.1
            · exact absurd ht' h.2.2
          · exact h
        obtain ⟨hk, hpass⟩ := hnk
        rw [handle_tv_noKey env s now c0 tk ok data false hid ht hc1 hc2 htv hpass hk,
            handle_tv_noKey env s now c0 tk ok data true hid ht hc1 hc2 htv hpass hk]
        exact ⟨⟨rfl, rfl⟩, rfl⟩
      · push_neg at htv
        obtain ⟨h3, h2, h1⟩ := htv
        rw [handle_other env s now c0 tk ok data false hid ht hc1 hc2 hm h3 h2 h1,
            handle_other env s now c0 tk ok data true hid ht hc1 hc2 hm h3 h2 h1]
        exact ⟨⟨rfl, rfl⟩, rfl⟩

/-- Claim C7, witness: the amended response contract at concrete inputs —
the debounced submission of `eEp` answers 200 even under a failing dispatch
oracle, while under a failing dispatch the movie event, the `Other`-type
event carrying a series key, and the episode event with an empty series key
all answer 500. -/
theorem dispatch_failure_surface_witness :
    ((handleJellyfinWebhook envW initialState 0 (some cfgW) none none eEp false).2.1 =
        .debounced ∧ WebhookResponse.debounced.status = 200) ∧
    ((handleJellyfinWebhook envW initialState 0 (some cfgW) none none eMovie
        false).2.1 = .internalError ∧
      WebhookResponse.internalError.status = 500) ∧
    (handleJellyfinWebhook envW initialState 0 (some cfgW) none none eOther
        false).2.1 = .internalError ∧
    (handleJellyfinWebhook envW initialState 0 (some cfgW) none none eEpNoKey
        false).2.1 = .internalError := by
  refine ⟨?_, ?_, ?_, ?_⟩
  · exact (dispatch_failure_surface envW initialState 0 cfgW none none eEp "S1"
      (by decide) (by decide) (by decide) (by decide)).1 (by decide) (by decide)
      (by decide) (by decide) false
  · exact ((dispatch_failure_surface envW initialState 0 cfgW none none eMovie "S1"
      (by decide) (by decide) (by decide) (by decide)).2 (Or.inl (by decide))).1
  · exact (((dispatch_failure_surface envW initialState 0 cfgW none none eOther "S1"
      (by decide) (by decide) (by decide) (by decide)).2
      (Or.inr (Or.inl ⟨by decide, by decide, by decide⟩))).1).1
  · exact (((dispatch_failure_surface envW initialState 0 cfgW none none eEpNoKey "S1"
      (by decide) (by decide) (by decide) (by decide)).2
      (Or.inr (Or.inr ⟨by decide, by decide⟩))).1).1

/-- Claim C8 (corrected), counterexample to the claim as stated: for a
series event whose primary provider reports a 45-minute runtime while the
secondary provider has none, the composed runtime field is `"N/A"` even
though the primary runtime is available and would render as `"45m"` — the
primary fallback is not applied uniformly to series. -/
theorem runtime_not_uniform :
    (processAndSendNotification envR eSeries cfgR).runtime = "N/A" ∧
    eSeries.ItemType = "Series" ∧
    (envR.tmdb "tv" "42").bind Details.runtime = some 45 ∧
    minutesToHhMm 45 = "45m" := by
  refine ⟨by decide, by decide, by decide, by decide⟩

/-- Claim C8 (amended): the composed runtime prefers the secondary
provider's truthy, non-`"N/A"` runtime string, rendered from its first digit
run, for every item type; when the secondary runtime is absent the primary
provider's runtime is used only for movies (when positive); for any
non-movie item type an absent secondary runtime yields `"N/A"` regardless of
the primary runtime. -/
theorem runtime_prefers_secondary (it : String) (r : String) (d : String)
    (tr : Option Int) (rt : Int) :
    (r ≠ "" → r ≠ "N/A" → jsMatchDigits r = some d →
      computeRuntime it (some r) tr = d ++ " min") ∧
    (0 < rt → computeRuntime "Movie" none (some rt) = minutesToHhMm rt) ∧
    (it ≠ "Movie" → computeRuntime it none tr = "N/A") := by
  refine ⟨?_, ?_, ?_⟩
  · intro h1 h2 h3
    unfold computeRuntime
    simp [h1, h2, h3]
  · intro h
    unfold computeRuntime
    simp [h]
  · intro h
    unfold computeRuntime
    simp [h]

/-- Claim C8, witness: the amended runtime rule at concrete inputs — an
episode's `"45 min"` secondary runtime renders as `"45 min"`, a movie falls
back to the primary 95-minute runtime, and a series with no secondary
runtime stays `"N/A"` despite a primary runtime. -/
theorem runtime_prefers_secondary_witness :
    computeRuntime "Episode" (some "45 min") none = "45" ++ " min" ∧
    computeRuntime "Movie" none (some 95) = minutesToHhMm 95 ∧
    computeRuntime "Series" none (some 45) = "N/A" := by
  refine ⟨?_, ?_, ?_⟩
  · exact (runtime_prefers_secondary "Episode" "45 min" "45" none 1).1
      (by decide) (by decide) (by decide)
  · exact (runtime_prefers_secondary "Movie" "x" "x" (some 95) 95).2.1 (by decide)
  · exact (runtime_prefers_secondary "Series" "x" "x" (some 45) 1).2.2 (by decide)

/-- Claim C6 (corrected), counterexample to the claim as stated: `S1`'s
record was created at t = 30 s (expiry scheduled for t = 30 s + 24 h) and
refreshed at t = 90 s to level 2; the earlier timer is still scheduled, it
fires before 24 hours have passed since the refresh, and it deletes the
refreshed record — an earlier-scheduled expiry does remove a refreshed
record prematurely. -/
theorem expiry_not_reset :
    mlookup t4W.sentNotifications "S1" = some ⟨2⟩ ∧
    ("S1", 86430000) ∈ t4W.cleanups ∧
    86430000 < 90000 + 86400000 ∧
    mlookup (fireCleanup t4W "S1" 86430000).sentNotifications "S1" = none := by
  refine ⟨by decide, by decide, by decide, by decide⟩

/-- Claim C6 (amended): a successful flush creates or refreshes the
suppression record and schedules a fresh 24-hour expiry, but never cancels a
previously scheduled expiry — the old timers stay scheduled; and whenever
any outstanding expiry timer for a key fires, the record for that key is
removed, regardless of when the record was last updated.  The record is
therefore destroyed when the earliest outstanding expiry fires, which can be
sooner than 24 hours after its last update. -/
theorem suppression_expiry_unclamped (env : Env) (s : EngineState) (key : String)
    (now t : Nat) (deb : PendingAgg) :
    (mlookup s.debouncedSenders key = some deb →
      (fireDebounce env s key now true).1.cleanups =
        (key, now + 24 * 60 * 60 * 1000) :: s.cleanups) ∧
    ((key, t) ∈ s.cleanups →
      mlookup (fireCleanup s key t).sentNotifications key = none) := by
  constructor
  · intro h
    rw [fireDebounce_of_some_ok env s key now deb h]
  · intro h
    rw [fireCleanup_of_mem s key t h]
    exact mlookup_merase_self _ _

/-- Claim C6, witness: the amended expiry behaviour at the concrete trace —
the refreshing flush at t = 90 s keeps the old timer scheduled, and the old
timer's firing removes the refreshed record. -/
theorem suppression_expiry_unclamped_witness :
    (fireDebounce envW t3W "S1" 90000 true).1.cleanups =
      ("S1", 90000 + 24 * 60 * 60 * 1000) :: t3W.cleanups ∧
    mlookup (fireCleanup t4W "S1" 86430000).sentNotifications "S1" = none := by
  constructor
  · exact (suppression_expiry_unclamped envW t3W "S1" 90000 86430000
      ⟨eSeason, 90000, cfgW⟩).1 (by decide)
  · exact (suppression_expiry_unclamped envW t4W "S1" 90000 86430000
      ⟨eSeason, 90000, cfgW⟩).2 (by decide)

/-- Claim C5 (confirmed): in any reachable state holding a live suppression
record for key `K` at level `r.level`: (a) submitting a TV event for `K`
whose level is at most `r.level` leaves the state unchanged and triggers no
dispatch, whatever the configuration or validation outcome; (b) any pending
aggregation coexisting for `K` — the only source of a later flush for `K` —
holds an event of strictly higher level, so no flush at level ≤ `r.level`
can occur; and (c) across any single engine step, a surviving record's level
never decreases. -/
theorem suppression_monotonicity (s : EngineState) (K : String) (r : SuppressionRecord)
    (hreach : Reachable s) (hrec : mlookup s.sentNotifications K = some r) :
    (∀ (env : Env) (now : Nat) (cfg : Option Config) (tk ok : Option String)
       (data : Event) (dOk : Bool),
      data.SeriesId = some K →
      (data.ItemType = "Series" ∨ data.ItemType = "Season" ∨ data.ItemType = "Episode") →
      getItemLevel data.ItemType ≤ r.level →
      (handleJellyfinWebhook env s now cfg tk ok data dOk).1 = s ∧
      (handleJellyfinWebhook env s now cfg tk ok data dOk).2.2 = none) ∧
    (∀ deb, mlookup s.debouncedSenders K = some deb →
      r.level < getItemLevel deb.latestData.ItemType) ∧
    (∀ s' r', Step s s' → mlookup s'.sentNotifications K = some r' →
      r.level ≤ r'.level) := by
  have hinv := reachable_pendingAboveSent hreach
  refine ⟨?_, ?_, ?_⟩
  · intro env now cfg tk ok data dOk hkey htv hlev
    by_cases hid : jsTruthy data.ItemId = true
    · by_cases ht : data.NotificationType = "ItemAdded"
      · match cfg with
        | none =>
          rw [handle_noConfig env s now tk ok data dOk hid ht]
          exact ⟨rfl, rfl⟩
        | some c0 =>
          by_cases hc : jsTruthy c0.notification_channel_id = true ∧
              jsTruthy c0.jellyfin_server_url = true
          · obtain ⟨hc1, hc2⟩ := hc
            have hlev' : getItemLevel data.ItemType ≤ sentLevelFor s data.SeriesId := by
              rw [hkey, sentLevelFor_of_some s K r hrec]
              exact hlev
            rw [handle_tv_skip env s now c0 tk ok data dOk hid ht hc1 hc2 htv hlev']
            exact ⟨rfl, rfl⟩
          · rw [handle_incompleteConfig env s now c0 tk ok data dOk hid ht hc]
            exact ⟨rfl, rfl⟩
      · rw [handle_typeIgnored env s now cfg tk ok data dOk hid ht]
        exact ⟨rfl, rfl⟩
    · rw [handle_invalid env s now cfg tk ok data dOk (by simpa using hid)]
      exact ⟨rfl, rfl⟩
  · intro deb hdeb
    exact hinv K deb r hdeb hrec
  · intro s' r' hstep h'
    exact sent_mono_step hinv hstep K r r' hrec h'

/-- Claim C5, witness: in the concrete reachable state where `S1` was
notified at Episode level, submitting another Episode event for `S1` leaves
the state unchanged and dispatches nothing. -/
theorem suppression_monotonicity_witness :
    (handleJellyfinWebhook envW t2W 40000 (some cfgW) none none eEp2 true).1 = t2W ∧
    (handleJellyfinWebhook envW t2W 40000 (some cfgW) none none eEp2 true).2.2 = none := by
  have h1 : Reachable s1W :=
    Reachable.step Reachable.init
      (Step.submit initialState envW 0 (some cfgW) none none eEp true)
  have h2 : Reachable t2W :=
    Reachable.step h1 (Step.flush s1W envW "S1" 30000 true)
  exact (suppression_monotonicity t2W "S1" ⟨1⟩ h2 (by decide)).1 envW 40000 (some cfgW)
    none none eEp2 true (by decide) (by decide) (by decide)

theorem trackedPending_handle (env : Env) (tk ok : Option String) (key : String)
    (cfg : Config) {sA sB : EngineState} (hR : TrackedPending key cfg sA sB)
    (data : Event) (now : Nat) (ocA ocB : Option Config)
    (hA : CompleteOpt ocA) (hB : CompleteOpt ocB) :
    TrackedPending key cfg (handleJellyfinWebhook env sA now ocA tk ok data true).1
      (handleJellyfinWebhook env sB now ocB tk ok data true).1 := by
  obtain ⟨hsent, hlook, deb, hdeb, hcfg⟩ := hR
  obtain ⟨cA, rfl, hcA1, hcA2⟩ := hA
  obtain ⟨cB, rfl, hcB1, hcB2⟩ := hB
  by_cases hid : jsTruthy data.ItemId = true
  · by_cases ht : data.NotificationType = "ItemAdded"
    · by_cases hm : data.ItemType = "Movie"
      · rw [handle_movie env sA now cA tk ok data true hid ht hcA1 hcA2 hm,
            handle_movie env sB now cB tk ok data true hid ht hcB1 hcB2 hm]
        exact ⟨hsent, hlook, deb, hdeb, hcfg⟩
      · by_cases htv : data.ItemType = "Series" ∨ data.ItemType = "Season" ∨
            data.ItemType = "Episode"
        · have hsl : sentLevelFor sB data.SeriesId = sentLevelFor sA data.SeriesId := by
            unfold sentLevelFor
            cases data.SeriesId
            · rfl
            · rw [hsent]
          by_cases hlev : getItemLevel data.ItemType ≤ sentLevelFor sA data.SeriesId
          · rw [handle_tv_skip env sA now cA tk ok data true hid ht hcA1 hcA2 htv hlev,
                handle_tv_skip env sB now cB tk ok data true hid ht hcB1 hcB2 htv
                  (by rw [hsl]; exact hlev)]
            exact ⟨hsent, hlook, deb, hdeb, hcfg⟩
          · have hpassA : sentLevelFor sA data.SeriesId < getItemLevel data.ItemType :=
              Nat.lt_of_not_le hlev
            have hpassB : sentLevelFor sB data.SeriesId < getItemLevel data.ItemType := by
              rw [hsl]
              exact hpassA
            by_cases hk : jsTruthy data.SeriesId = true
            · match hkey : data.SeriesId with
              | none =>
                rw [hkey] at hk
                exact absurd hk (by decide)
              | some k2 =>
                have hk2 : k2 ≠ "" := by
                  rw [hkey] at hk
                  simpa [jsTruthy] using hk
                rw [handle_tv_debounce env sA now cA tk ok data true k2 hid ht hcA1 hcA2
                      htv hpassA hkey hk2,
                    handle_tv_debounce env sB now cB tk ok data true k2 hid ht hcB1 hcB2
                      htv hpassB hkey hk2]
                by_cases hkk : k2 = key
                · subst hkk
                  have hdebB : mlookup sB.debouncedSenders k2 = some deb := by
                    rw [← hlook]
                    exact hdeb
                  refine ⟨?_, ?_, ?_⟩
                  · rw [debounceSubmit_sent, debounceSubmit_sent]
                    exact hsent
                  · rw [debounceSubmit_lookup_self_some sA k2 data _ now deb hdeb,
                        debounceSubmit_lookup_self_some sB k2 data _ now deb hdebB]
                  · refine ⟨_, debounceSubmit_lookup_self_some sA k2 data _ now deb hdeb, ?_⟩
                    split
                    · exact hcfg
                    · exact hcfg
                · refine ⟨?_, ?_, ?_⟩
                  · rw [debounceSubmit_sent, debounceSubmit_sent]
                    exact hsent
                  · rw [debounceSubmit_lookup_ne sA k2 data _ now key hkk,
                        debounceSubmit_lookup_ne sB k2 data _ now key hkk]
                    exact hlook
                  · refine ⟨deb, ?_, hcfg⟩
                    rw [debounceSubmit_lookup_ne sA k2 data _ now key hkk]
                    exact hdeb
            · rw [handle_tv_noKey env sA now cA tk ok data true hid ht hcA1 hcA2 htv
                    hpassA (by simpa using hk),
                  handle_tv_noKey env sB now cB tk ok data true hid ht hcB1 hcB2 htv
                    hpassB (by simpa using hk)]
              exact ⟨hsent, hlook, deb, hdeb, hcfg⟩
        · push_neg at htv
          obtain ⟨h3, h2, h1⟩ := htv
          rw [handle_other env sA now cA tk ok data true hid ht hcA1 hcA2 hm h3 h2 h1,
              handle_other env sB now cB tk ok data true hid ht hcB1 hcB2 hm h3 h2 h1]
          exact ⟨hsent, hlook, deb, hdeb, hcfg⟩
    · rw [handle_typeIgnored env sA now (some cA) tk ok data true hid ht,
          handle_typeIgnored env sB now (some cB) tk ok data true hid ht]
      exact ⟨hsent, hlook, deb, hdeb, hcfg⟩
  · rw [handle_invalid env sA now (some cA) tk ok data true (by simpa using hid),
        handle_invalid env sB now (some cB) tk ok data true (by simpa using hid)]
    exact ⟨hsent, hlook, deb, hdeb, hcfg⟩

theorem trackedPending_submitMany (env : Env) (tk ok : Option String) (key : String)
    (cfg : Config) :
    ∀ (l1 l2 : List (Event × Nat × Option Config)) (sA sB : EngineState),
      TrackedPending key cfg sA sB →
      l1.map (fun x => (x.1, x.2.1)) = l2.map (fun x => (x.1, x.2.1)) →
      (∀ x ∈ l1, CompleteOpt x.2.2) → (∀ x ∈ l2, CompleteOpt x.2.2) →
      TrackedPending key cfg (submitMany env tk ok sA l1) (submitMany env tk ok sB l2) := by
  intro l1
  induction l1 with
  | nil =>
    intro l2 sA sB hR hmap _ _
    cases l2 with
    | nil => exact hR
    | cons y l2 => simp at hmap
  | cons x l1 ih =>
    intro l2 sA sB hR hmap h1 h2
    cases l2 with
    | nil => simp at hmap
    | cons y l2 =>
      obtain ⟨x1, x2, x3⟩ := x
      obtain ⟨y1, y2, y3⟩ := y
      simp only [List.map_cons, List.cons.injEq, Prod.mk.injEq] at hmap
      obtain ⟨⟨hx1, hx2⟩, hrest⟩ := hmap
      subst hx1
      subst hx2
      show TrackedPending key cfg
        (submitMany env tk ok (handleJellyfinWebhook env sA x2 x3 tk ok x1 true).1 l1)
        (submitMany env tk ok (handleJellyfinWebhook env sB x2 y3 tk ok x1 true).1 l2)
      exact ih l2 _ _
        (trackedPending_handle env tk ok key cfg hR x1 x2 x3 y3
          (h1 (x1, x2, x3) (List.mem_cons_self _ _))
          (h2 (x1, x2, y3) (List.mem_cons_self _ _)))
        hrest
        (fun z hz => h1 z (List.mem_cons_of_mem _ hz))
        (fun z hz => h2 z (List.mem_cons_of_mem _ hz))

/-- Claim C10 (corrected), counterexample to the claim as stated: two runs
begin identically with `eEp` at t = 0 under the complete configuration, and
differ only in the configuration returned for the second submission
(`eSeason` at t = 5 s): complete in the first run, channel removed in the
second.  The second run rejects that submission, so the flush carries the
Episode event instead of the Season event — the flushed notifications are
not identical. -/
theorem flushed_differs_on_config_change :
    (fireDebounce envW
        (handleJellyfinWebhook envW s1W 5000 (some cfgW) none none eSeason true).1
        "S1" 30000 true).2 ≠
      (fireDebounce envW
        (handleJellyfinWebhook envW s1W 5000 (some cfgBad) none none eSeason true).1
        "S1" 30000 true).2 := by
  decide

/-- Claim C10 (amended): once the pending aggregation for a key exists, its
captured configuration survives every later submission, and two runs that
process the same later submissions — with possibly different
configuration-store answers, provided every answer is present and complete —
flush exactly the same notification: the composed payload depends only on
the held event and the configuration captured when the pending aggregation
was created, never on configuration changes made after the first
submission. -/
theorem flush_uses_creation_config (env : Env) (tk ok : Option String) (key : String)
    (cfg : Config) (s : EngineState) (deb : PendingAgg)
    (hdeb : mlookup s.debouncedSenders key = some deb) (hcfg : deb.config = cfg)
    (l1 l2 : List (Event × Nat × Option Config))
    (hmap : l1.map (fun x => (x.1, x.2.1)) = l2.map (fun x => (x.1, x.2.1)))
    (h1 : ∀ x ∈ l1, CompleteOpt x.2.2) (h2 : ∀ x ∈ l2, CompleteOpt x.2.2)
    (now : Nat) (dOk : Bool) :
    (fireDebounce env (submitMany env tk ok s l1) key now dOk).2 =
      (fireDebounce env (submitMany env tk ok s l2) key now dOk).2 ∧
    (∀ deb', mlookup (submitMany env tk ok s l1).debouncedSenders key = some deb' →
      deb'.config = cfg) := by
  obtain ⟨hsent, hlook, d0, hd0, hc0⟩ :=
    trackedPending_submitMany env tk ok key cfg l1 l2 s s
      ⟨rfl, rfl, deb, hdeb, hcfg⟩ hmap h1 h2
  constructor
  · rcases h0 : mlookup (submitMany env tk ok s l1).debouncedSenders key with _ | d
    · rw [fireDebounce_of_none env _ key now dOk h0,
          fireDebounce_of_none env _ key now dOk (by rw [← hlook]; exact h0)]
    · have h0B : mlookup (submitMany env tk ok s l2).debouncedSenders key = some d := by
        rw [← hlook]
        exact h0
      cases dOk
      · rw [fireDebounce_of_some_fail env _ key now d h0,
            fireDebounce_of_some_fail env _ key now d h0B]
      · rw [fireDebounce_of_some_ok env _ key now d h0,
            fireDebounce_of_some_ok env _ key now d h0B]
  · intro d hd
    rw [hd0] at hd
    cases hd
    exact hc0

/-- Claim C10, witness: with the pending aggregation for `S1` created by
`eEp` under `cfgW`, the runs that submit `eSeason` under `cfgW` and under
the different complete configuration `cfgR` flush the same notification. -/
theorem flush_uses_creation_config_witness :
    (fireDebounce envW
        (submitMany envW none none s1W [(eSeason, 5000, some cfgW)]) "S1" 30000 true).2 =
      (fireDebounce envW
        (submitMany envW none none s1W [(eSeason, 5000, some cfgR)]) "S1" 30000 true).2 := by
  refine (flush_uses_creation_config envW none none "S1" cfgW s1W ⟨eEp, 30000, cfgW⟩
    (by decide) (by decide) [(eSeason, 5000, some cfgW)] [(eSeason, 5000, some cfgR)]
    (by decide) ?_ ?_ 30000 true).1
  · rintro x hx
    simp only [List.mem_singleton] at hx
    subst hx
    exact ⟨cfgW, rfl, by decide, by decide⟩
  · rintro x hx
    simp only [List.mem_singleton] at hx
    subst hx
    exact ⟨cfgR, rfl, by decide, by decide⟩

end Anchorr
